import Mathlib

/-!
Verification of the multi-layer subtitle cache and fetch-arbitration engine
(`SubtitleManager`, src/content/services/SubtitleManager.js).

The JavaScript class is shallowly embedded: the mutable fields
(`memoryCache`, `db`) become an explicit `ManagerState` threaded through the
functions, the asynchronous collaborators (the auth token, the remote
cache/quota endpoint, the transcript providers, IndexedDB fault modes) become
an explicit per-call environment `FetchEnv`, and JS exceptions escaping a
function become `Except` errors.  JS `Map` objects (insertion-ordered,
unique keys) are modelled as association lists; `Date.now()` timestamps are
naturals in milliseconds; caption timing numbers are rationals.  Logging
calls (`this.log`, `showRateLimitMessage`, `showUsageStatus`) and the
`stats` counters are pure observability and are elided; the
`chrome.storage.sync.get(['subtitleServer'])` preference read in
`fetchFromYtDlp` is modelled as always succeeding.
-/

namespace Vocabumin

/-- Decidable equality for `Except` results, so concrete runs of the
orchestrator can be checked by `decide`. -/
instance {e a : Type} [DecidableEq e] [DecidableEq a] :
    DecidableEq (Except e a) := fun x y =>
  match x, y with
  | .error u, .error v =>
      if h : u = v then .isTrue (by rw [h]) else .isFalse (by simp [h])
  | .error _, .ok _ => .isFalse (by simp)
  | .ok _, .error _ => .isFalse (by simp)
  | .ok u, .ok v =>
      if h : u = v then .isTrue (by rw [h]) else .isFalse (by simp [h])

/-- A word extracted from a caption line (`extractWordsFromText`):
the word text with a single trailing punctuation mark split off. -/
structure Word where
  text : String
  punctuation : String
deriving Repr, DecidableEq

/-- A caption segment: `{start, end, text, words}` (times in seconds,
modelled as rationals since JS numbers carry the exact decimal literals
used by the code's arithmetic here). -/
structure Caption where
  start : Rat
  «end» : Rat
  text : String
  words : List Word
deriving Repr, DecidableEq

/-- `captionData` metadata attached to a payload.  The `type` field is
absent (`none`) on the server-cache path, which builds only
`{language, source}`. -/
structure CaptionData where
  language : String
  type : Option String
  source : String
deriving Repr, DecidableEq

/-- `this.cacheExpiry = 7 * 24 * 60 * 60 * 1000` (7 days in ms). -/
def cacheExpiry : Nat := 7 * 24 * 60 * 60 * 1000

/-- `this.maxMemoryCacheSize = 3`. -/
def maxMemoryCacheSize : Nat := 3

/-- Lookup in an insertion-ordered JS `Map` modelled as an association
list (`Map.get` / `Map.has`). -/
def mapGet {α : Type} (m : List (String × α)) (k : String) : Option α :=
  match m with
  | [] => none
  | p :: rest => if p.1 = k then some p.2 else mapGet rest k

/-- `Map.set`: overwrite in place if the key is present (JS `Map.set`
keeps the key's original insertion position), else append at the end. -/
def mapSet {α : Type} (m : List (String × α)) (k : String) (v : α) :
    List (String × α) :=
  match m with
  | [] => [(k, v)]
  | p :: rest => if p.1 = k then (k, v) :: rest else p :: mapSet rest k v

/-- `addToMemoryCache`, generically in the stored entry type: `set`, then
if `size > maxMemoryCacheSize` delete the first (oldest-inserted) key
(`this.memoryCache.keys().next().value`). -/
def addToMemoryCacheGen {α : Type} (m : List (String × α)) (videoId : String)
    (v : α) : List (String × α) :=
  let m2 := mapSet m videoId v
  if m2.length > maxMemoryCacheSize then
    match m2.head? with
    | some p => m2.filter (fun q => q.1 != p.1)
    | none => m2
  else m2

/-- An entry of the volatile (memory) cache:
`{captions, captionData, timestamp: Date.now()}`.  `captions` is an
`Option` because the VTT branch of the local fetcher produces a result
with no `captions` field (JS `undefined`). -/
structure MemEntry where
  captions : Option (List Caption)
  captionData : CaptionData
  timestamp : Nat
deriving Repr, DecidableEq

/-- `addToMemoryCache(videoId, captions, captionData)` on the manager's
`memoryCache`. -/
def addToMemoryCache (m : List (String × MemEntry)) (videoId : String)
    (e : MemEntry) : List (String × MemEntry) :=
  addToMemoryCacheGen m videoId e

/-- A row of the IndexedDB object store `subtitles`
(`{videoId, captions, captionData, cachedAt}`, keyPath `videoId`). -/
structure DBRow where
  videoId : String
  captions : Option (List Caption)
  captionData : CaptionData
  cachedAt : Nat
deriving Repr, DecidableEq

/-- The IndexedDB object store contents. -/
abbrev DBStore := List DBRow

/-- `store.get(videoId)`. -/
def dbGet (rows : DBStore) (videoId : String) : Option DBRow :=
  match rows with
  | [] => none
  | r :: rest => if r.videoId = videoId then some r else dbGet rest videoId

/-- `deleteFromIndexedDB(videoId)`: remove the row with that key. -/
def deleteFromIndexedDB (rows : DBStore) (videoId : String) : DBStore :=
  rows.filter (fun r => r.videoId != videoId)

/-- Fault modes of the IndexedDB requests issued *after* a successful
open: `read` makes the `store.get` request error (its `onerror` /
exception handler resolves `null`), `write` makes `store.put` fail
(resolves `false`), `delete` makes `store.delete` fail. -/
structure IDBFaults where
  read : Bool
  write : Bool
  delete : Bool
deriving Repr, DecidableEq

/-- All IndexedDB requests succeed. -/
def noFaults : IDBFaults := ⟨false, false, false⟩

/-- `getFromIndexedDB(videoId)` after a successful open: read errors
resolve `null`; a present row is returned with its age only if
`age < cacheExpiry`, otherwise it is treated as absent and
`deleteFromIndexedDB` is fired as a side effect of the read.
Returns the read result together with the store after the call. -/
def getFromIndexedDB (f : IDBFaults) (rows : DBStore) (now : Nat)
    (videoId : String) : Option (DBRow × Nat) × DBStore :=
  if f.read then (none, rows)
  else
    match dbGet rows videoId with
    | some data =>
        let age := now - data.cachedAt
        if age < cacheExpiry then (some (data, age), rows)
        else (none, if f.delete then rows else deleteFromIndexedDB rows videoId)
    | none => (none, rows)

/-- `saveToIndexedDB(videoId, data)` after a successful open:
`store.put` overwrites the row wholesale, stamping `cachedAt := now`;
a write fault resolves `false` leaving the store unchanged. -/
def saveToIndexedDB (f : IDBFaults) (rows : DBStore) (videoId : String)
    (captions : Option (List Caption)) (captionData : CaptionData)
    (now : Nat) : DBStore :=
  if f.write then rows
  else deleteFromIndexedDB rows videoId ++ [⟨videoId, captions, captionData, now⟩]

/-- Usage counters (`{burst, hourly, daily}`, each a "used/total" string). -/
structure Usage where
  burst : String
  hourly : String
  daily : String
deriving Repr, DecidableEq

/-- The `subtitles` value inside a remote cache hit.  The code reads it as
`subtitles.captions || subtitles` and `subtitles.language || 'en'`, so it
is either an object wrapping a captions array (with a possibly-absent
language, absent modelled as `""`) or directly a bare captions array. -/
inductive ServerSubs
  | wrapped (captions : List Caption) (language : String)
  | bareArray (captions : List Caption)
deriving Repr, DecidableEq

/-- `subtitles.captions || subtitles` (a present captions array is truthy
in JS even when empty). -/
def ServerSubs.captionsOf : ServerSubs → List Caption
  | .wrapped c _ => c
  | .bareArray c => c

/-- `subtitles.language || 'en'`. -/
def ServerSubs.languageOf : ServerSubs → String
  | .wrapped _ l => if l = "" then "en" else l
  | .bareArray _ => "en"

/-- Parsed JSON body of the combined cache + rate-limit endpoint
(`POST /subtitles/fetch-or-cache`).  Fields the code never reads on a
given path keep JS-undefined defaults (`none`, `0`, `""`). -/
structure ServerCheckBody where
  cached : Bool
  subtitles : Option ServerSubs
  hit_count : Nat
  age_days : Nat
  allowed : Bool
  reason : String
  waitTime : Nat
  usage : Option Usage
deriving Repr, DecidableEq

/-- Outcome of one `fetch(...)` network call: the request throws, the
response body fails to parse as JSON (`response.json()` throws), or a
response with an HTTP status and a parsed body. -/
inductive NetCall (β : Type)
  | throws
  | badJson (status : Nat)
  | response (status : Nat) (body : β)
deriving Repr, DecidableEq

/-- `response.ok` (status in 200..299). -/
def httpOk (status : Nat) : Bool := 200 ≤ status && status < 300

/-- The fail-open decision `{cached:false, allowed:true, usage:null}`
(absent JSON fields at their JS-undefined defaults). -/
def failOpenDecision : ServerCheckBody :=
  { cached := false, subtitles := none, hit_count := 0, age_days := 0,
    allowed := true, reason := "", waitTime := 0, usage := none }

/-- `checkCacheAndLimits(videoId)`: no token, a thrown request, a JSON
parse failure, or a non-2xx/non-429 status all yield the fail-open
decision; a 2xx or 429 response returns its parsed body verbatim. -/
def checkCacheAndLimits (token : Option String)
    (net : NetCall ServerCheckBody) : ServerCheckBody :=
  match token with
  | none => failOpenDecision
  | some _ =>
    match net with
    | .throws => failOpenDecision
    | .badJson _ => failOpenDecision
    | .response status body =>
        if httpOk status || status == 429 then body else failOpenDecision

/-- A raw transcript segment from the cloud provider:
`{start, duration, text}`. -/
structure Snippet where
  start : Rat
  duration : Rat
  text : String
deriving Repr, DecidableEq

/-- The `transcript` field of the cloud provider's response.  The code
reads `data.transcript?.snippets || data.transcript` and
`data.transcript?.is_generated || false`, so it is absent, a bare array
of snippets (no `is_generated`, hence treated as not generated), or an
object carrying both. -/
inductive TranscriptField
  | absent
  | array (snippets : List Snippet)
  | object (snippets : List Snippet) (is_generated : Bool)
deriving Repr, DecidableEq

/-- `data.transcript?.snippets || data.transcript`. -/
def TranscriptField.snippetsOf : TranscriptField → Option (List Snippet)
  | .absent => none
  | .array s => some s
  | .object s _ => some s

/-- `data.transcript?.is_generated || false`. -/
def TranscriptField.isGeneratedOf : TranscriptField → Bool
  | .object _ g => g
  | _ => false

/-- Parsed JSON body of the cloud transcript provider
(`GET /transcript/videoId?lang=en`); absent string fields modelled
as `""`. -/
structure VocabuminBody where
  success : Bool
  transcript : TranscriptField
  language : String
  error_type : String
  error : String
  warp_active : Bool
deriving Repr, DecidableEq

/-- Parsed JSON body of the local extraction server
(`POST /extract-subs-json3` or `POST /extract-subs`). -/
structure LocalBody where
  success : Bool
  caption_groups : List Caption
  content : String
  language : String
  subtitle_type : String
deriving Repr, DecidableEq

/-- Result of the source fetchers (`fetchFromVocabumin`,
`fetchFromYtDlp`): a bare `{success:false}`, the structured error object
of the cloud path, or a success carrying either a captions array (cloud
and JSON3 paths) or raw content (VTT fallback path). -/
inductive YtDlpResult
  | failure
  | structuredError (errorType errorMessage : String)
      (isUserSideIssue isServerIssue : Bool) (warpActive : Bool)
  | captionsSuccess (captions : List Caption) (captionData : CaptionData)
  | contentSuccess (content : String) (captionData : CaptionData)
deriving Repr, DecidableEq

/-- `fetchResult.success` is truthy. -/
def YtDlpResult.isSuccess : YtDlpResult → Bool
  | .captionsSuccess _ _ => true
  | .contentSuccess _ _ => true
  | _ => false

/-- Error types classified as user-side in `fetchFromVocabumin`. -/
def userSideErrorTypes : List String :=
  ["no_transcript", "transcripts_disabled", "video_unavailable"]

/-- Error types classified as server-side in `fetchFromVocabumin`. -/
def serverErrorTypes : List String :=
  ["server_error", "youtube_ip_blocked", "network_error"]

/-- The structured-error branch of `fetchFromVocabumin` (response ok but
no usable snippets or `success` false):  defaults `error_type` to
`"unknown"` and `error` to `"Unknown error"`, then classifies.  (The JS
`|| !errorType` disjunct is dead after the default; it is kept as the
always-false `errorType = ""`.) -/
def vocabuminError (body : VocabuminBody) : YtDlpResult :=
  let errorType := if body.error_type = "" then "unknown" else body.error_type
  let errorMessage := if body.error = "" then "Unknown error" else body.error
  let isUserSideIssue := userSideErrorTypes.contains errorType
  let isServerIssue := serverErrorTypes.contains errorType || errorType = ""
  .structuredError errorType errorMessage isUserSideIssue isServerIssue
    body.warp_active

/-- Trailing characters stripped by `extractWordsFromText`
(`/[.,!?;:]$/`). -/
def trailingPunctChars : List Char := ['.', ',', '!', '?', ';', ':']

/-- Splitting a character list at every whitespace character.  JS
`text.split(/\\s+/)` splits at whitespace *runs*; splitting at every
single whitespace character instead only adds empty pieces, which the
`filter(word.length > 0)` the code applies right after removes, so the
composition is the same. -/
def splitAtWhitespace : List Char → List (List Char)
  | [] => [[]]
  | c :: rest =>
      let r := splitAtWhitespace rest
      if c.isWhitespace then [] :: r
      else
        match r with
        | [] => [[c]]
        | w :: ws => (c :: w) :: ws

/-- `extractWordsFromText(text)`: split on whitespace, drop empty
pieces, and split one trailing punctuation mark off each word. -/
def extractWordsFromText (text : String) : List Word :=
  ((splitAtWhitespace text.data).filter (fun w => decide (0 < w.length))).map
    (fun w =>
      match w.getLast? with
      | some c =>
          if trailingPunctChars.contains c then
            { text := String.mk w.dropLast, punctuation := String.mk [c] }
          else { text := String.mk w, punctuation := "" }
      | none => { text := String.mk w, punctuation := "" })

/-- `fetchFromVocabumin(videoId)` as a function of the network outcome:
on an ok response whose body has `success` and a nonempty snippet list,
each snippet `{start, duration, text}` becomes a caption with
`end = start + duration * (is_generated ? 0.45 : 1.0)`; otherwise the
structured error branch runs; a non-ok status, thrown request or JSON
parse failure yields the bare `{success:false}`. -/
def fetchFromVocabumin (net : NetCall VocabuminBody) : YtDlpResult :=
  match net with
  | .throws => .failure
  | .badJson _ => .failure
  | .response status body =>
    if httpOk status then
      match body.transcript.snippetsOf with
      | some snippets =>
          if body.success && decide (0 < snippets.length) then
            let isGenerated := body.transcript.isGeneratedOf
            let durationMultiplier : Rat := if isGenerated then 45/100 else 1
            .captionsSuccess
              (snippets.map (fun segment =>
                { start := segment.start,
                  «end» := segment.start + segment.duration * durationMultiplier,
                  text := segment.text,
                  words := extractWordsFromText segment.text }))
              { language := if body.language = "" then "en" else body.language,
                type := some (if isGenerated then "auto-generated" else "manual"),
                source := "vocabumin" }
          else vocabuminError body
      | none => vocabuminError body
    else .failure

/-- The VTT fallback attempt of the local path (`POST /extract-subs`):
an ok response with `success` yields a content payload tagged
`type:'vtt', source:'local-ytdlp'`; anything else is `{success:false}`. -/
def tryVtt (vttNet : NetCall LocalBody) : YtDlpResult :=
  match vttNet with
  | .throws => .failure
  | .badJson _ => .failure
  | .response status body =>
    if httpOk status && body.success then
      .contentSuccess body.content
        { language := body.language, type := some "vtt", source := "local-ytdlp" }
    else .failure

/-- The local path of `fetchFromYtDlp`: try JSON3 first; only a non-ok
JSON3 response (or an ok one whose body has `success` false) falls
through to the VTT attempt — a thrown request or a JSON parse failure on
an ok response is caught and ends the whole call with `{success:false}`. -/
def fetchLocalYtDlp (json3Net vttNet : NetCall LocalBody) : YtDlpResult :=
  match json3Net with
  | .throws => .failure
  | .badJson status => if httpOk status then .failure else tryVtt vttNet
  | .response status body =>
    if httpOk status && body.success then
      .captionsSuccess body.caption_groups
        { language := body.language, type := some body.subtitle_type,
          source := "local-ytdlp" }
    else tryVtt vttNet

/-- `fetchFromYtDlp(videoId)`: read the `subtitleServer` preference once
(`subtitleServer || 'cloud'`, absent modelled as `""`), then use the
selected source only — no fallback between cloud and local. -/
def fetchFromYtDlp (subtitleServer : String)
    (vocabuminNet : NetCall VocabuminBody)
    (json3Net vttNet : NetCall LocalBody) : YtDlpResult :=
  let preferredServer := if subtitleServer = "" then "cloud" else subtitleServer
  if preferredServer = "cloud" then fetchFromVocabumin vocabuminNet
  else fetchLocalYtDlp json3Net vttNet

/-- `Math.round(num / denom)` for natural `num` and even positive
`denom` (used with 1000 and 60000). -/
def mathRoundDiv (num denom : Nat) : Nat := (num + denom / 2) / denom

/-- `Math.ceil(num / denom)` for naturals. -/
def mathCeilDiv (num denom : Nat) : Nat := (num + denom - 1) / denom

/-- The manager's IndexedDB handle: either every open attempt rejects
(`failed`) or the store opens and holds `rows`. -/
inductive DB
  | failed
  | ready (rows : DBStore)
deriving Repr, DecidableEq

/-- The mutable state of a `SubtitleManager` instance that
`fetchSubtitles` reads and writes: the volatile `memoryCache` Map and
the IndexedDB handle. -/
structure ManagerState where
  memoryCache : List (String × MemEntry)
  db : DB
deriving Repr, DecidableEq

/-- The per-call environment: the clock, the `getAuthToken` outcome
(`none` models the `null` returned when the token store throws), the
outcome of each network call a `fetchSubtitles` call may issue, the
`subtitleServer` preference, and the IndexedDB fault modes. -/
structure FetchEnv where
  now : Nat
  token : Option String
  serverNet : NetCall ServerCheckBody
  subtitleServer : String
  vocabuminNet : NetCall VocabuminBody
  json3Net : NetCall LocalBody
  vttNet : NetCall LocalBody
  idbFaults : IDBFaults
deriving Repr, DecidableEq

/-- The discriminated result object returned by `fetchSubtitles`, one
constructor per `return` site. -/
inductive FetchResult
  | errNoVideoId
  | memoryHit (captions : Option (List Caption)) (captionData : CaptionData)
      (age_seconds age_minutes : Nat)
  | localCacheHit (captions : Option (List Caption)) (captionData : CaptionData)
      (age_minutes : Nat)
  | serverCacheHit (captions : List Caption) (captionData : CaptionData)
      (hit_count age_days : Nat)
  | rateLimited (waitMinutes waitTimeSeconds : Nat) (usage : Option Usage)
  | fetchFailed
  | freshFetch (captions : Option (List Caption)) (content : Option String)
      (captionData : CaptionData) (source : String)
deriving Repr, DecidableEq

/-- The `error` field of the returned object, when present. -/
def FetchResult.errorField : FetchResult → Option String
  | .errNoVideoId => some "No video ID provided"
  | .rateLimited waitMinutes _ _ =>
      some ("Rate limited. Wait " ++ toString waitMinutes ++ " minutes.")
  | .fetchFailed => some "Failed to fetch subtitles"
  | _ => none

/-- The `source` field of the returned object, when present. -/
def FetchResult.sourceField : FetchResult → Option String
  | .memoryHit _ _ _ _ => some "memory"
  | .localCacheHit _ _ _ => some "local_cache"
  | .serverCacheHit _ _ _ _ => some "server_cache"
  | .freshFetch _ _ _ s => some s
  | _ => none

/-- The `cached` field of the returned object, when present (the
rate-limit return object carries no `cached` key). -/
def FetchResult.cachedField : FetchResult → Option Bool
  | .errNoVideoId => some false
  | .memoryHit _ _ _ _ => some true
  | .localCacheHit _ _ _ => some true
  | .serverCacheHit _ _ _ _ => some true
  | .rateLimited _ _ _ => none
  | .fetchFailed => some false
  | .freshFetch _ _ _ _ => some false

/-- What one `fetchSubtitles` call produced: the returned object, the
manager state afterwards, and which collaborators were invoked
(`checkCacheAndLimits`, `fetchFromYtDlp`, and the backgrounded
`storeInServerCache` / `logFetch`). -/
structure FetchOutcome where
  result : FetchResult
  finalState : ManagerState
  remoteChecked : Bool
  sourceFetched : Bool
  storedServerCache : Bool
  loggedFetch : Bool
deriving Repr, DecidableEq

/-- A JS exception escaping `fetchSubtitles`: the IndexedDB open
rejection rethrown by the unguarded `await this.initIndexedDB()` inside
`getFromIndexedDB` (awaited without try/catch at the call site), or the
TypeError from reading `subtitles.captions` when a `cached:true` remote
body carries no `subtitles` value. -/
inductive JsError
  | dbOpenFailed
  | subtitlesTypeError
deriving Repr, DecidableEq

/-- `fetchSubtitles(videoId, videoTitle, channelName)`.  The title and
channel arguments only feed the backgrounded `storeInServerCache` /
`logFetch` calls (recorded as invocation flags), so they are omitted.
An empty `videoId` models the falsy-argument guard. -/
def fetchSubtitles (st : ManagerState) (env : FetchEnv) (videoId : String) :
    Except JsError FetchOutcome :=
  if videoId = "" then
    .ok { result := .errNoVideoId, finalState := st,
          remoteChecked := false, sourceFetched := false,
          storedServerCache := false, loggedFetch := false }
  else
    match mapGet st.memoryCache videoId with
    | some cached =>
        let age := env.now - cached.timestamp
        .ok { result := .memoryHit cached.captions cached.captionData
                (mathRoundDiv age 1000) (mathRoundDiv age 60000),
              finalState := st, remoteChecked := false, sourceFetched := false,
              storedServerCache := false, loggedFetch := false }
    | none =>
        match st.db with
        | .failed => .error .dbOpenFailed
        | .ready rows =>
          match getFromIndexedDB env.idbFaults rows env.now videoId with
          | (some hit, rows2) =>
              let entry : MemEntry :=
                { captions := hit.1.captions, captionData := hit.1.captionData,
                  timestamp := env.now }
              .ok { result := .localCacheHit hit.1.captions hit.1.captionData
                      (mathRoundDiv hit.2 60000),
                    finalState :=
                      { memoryCache := addToMemoryCache st.memoryCache videoId entry,
                        db := .ready rows2 },
                    remoteChecked := false, sourceFetched := false,
                    storedServerCache := false, loggedFetch := false }
          | (none, rows2) =>
              let serverResponse := checkCacheAndLimits env.token env.serverNet
              if serverResponse.cached then
                match serverResponse.subtitles with
                | none => .error .subtitlesTypeError
                | some subtitles =>
                    let captions := subtitles.captionsOf
                    let captionData : CaptionData :=
                      { language := subtitles.languageOf, type := none,
                        source := "server_cache" }
                    let entry : MemEntry :=
                      { captions := some captions, captionData := captionData,
                        timestamp := env.now }
                    .ok { result := .serverCacheHit captions captionData
                            serverResponse.hit_count serverResponse.age_days,
                          finalState :=
                            { memoryCache := addToMemoryCache st.memoryCache videoId entry,
                              db := .ready (saveToIndexedDB env.idbFaults rows2 videoId
                                      (some captions) captionData env.now) },
                          remoteChecked := true, sourceFetched := false,
                          storedServerCache := false, loggedFetch := false }
              else if !serverResponse.allowed then
                .ok { result := .rateLimited (mathCeilDiv serverResponse.waitTime 60)
                        serverResponse.waitTime serverResponse.usage,
                      finalState := { memoryCache := st.memoryCache, db := .ready rows2 },
                      remoteChecked := true, sourceFetched := false,
                      storedServerCache := false, loggedFetch := false }
              else
                match fetchFromYtDlp env.subtitleServer env.vocabuminNet
                        env.json3Net env.vttNet with
                | .captionsSuccess captions captionData =>
                    let fetchSource :=
                      if captionData.source = "" then "unknown" else captionData.source
                    let entry : MemEntry :=
                      { captions := some captions, captionData := captionData,
                        timestamp := env.now }
                    .ok { result := .freshFetch (some captions) none captionData fetchSource,
                          finalState :=
                            { memoryCache := addToMemoryCache st.memoryCache videoId entry,
                              db := .ready (saveToIndexedDB env.idbFaults rows2 videoId
                                      (some captions) captionData env.now) },
                          remoteChecked := true, sourceFetched := true,
                          storedServerCache := true, loggedFetch := true }
                | .contentSuccess content captionData =>
                    let fetchSource :=
                      if captionData.source = "" then "unknown" else captionData.source
                    let entry : MemEntry :=
                      { captions := none, captionData := captionData,
                        timestamp := env.now }
                    .ok { result := .freshFetch none (some content) captionData fetchSource,
                          finalState :=
                            { memoryCache := addToMemoryCache st.memoryCache videoId entry,
                              db := .ready (saveToIndexedDB env.idbFaults rows2 videoId
                                      none captionData env.now) },
                          remoteChecked := true, sourceFetched := true,
                          storedServerCache := true, loggedFetch := true }
                | _ =>
                    .ok { result := .fetchFailed,
                          finalState := { memoryCache := st.memoryCache, db := .ready rows2 },
                          remoteChecked := true, sourceFetched := true,
                          storedServerCache := false, loggedFetch := false }

/-- A JS object reference (heap address). -/
abbrev Ref := Nat

/-- A tiny JS heap for payload objects: an allocation counter and the
values the live references point at. -/
structure Heap (α : Type) where
  next : Ref
  vals : List (Ref × α)
deriving Repr, DecidableEq

/-- Dereference. -/
def Heap.get {α : Type} (h : Heap α) (r : Ref) : Option α :=
  (h.vals.find? (fun p => p.1 == r)).map (fun p => p.2)

/-- Allocate a fresh object holding value `v`; returns the new heap and
the fresh reference. -/
def Heap.alloc {α : Type} (h : Heap α) (v : α) : Heap α × Ref :=
  ({ next := h.next + 1, vals := (h.next, v) :: h.vals }, h.next)

/-- Heap well-formedness: every live reference is below the allocation
counter. -/
def Heap.wf {α : Type} (h : Heap α) : Prop := ∀ p ∈ h.vals, p.1 < h.next

/-- `addToMemoryCache` observed at the reference level:
`this.memoryCache.set(videoId, {captions, captionData, ...})` stores the
very references the caller passed in — the `Map` entry shares the
payload object with the caller, no copy is made. -/
def addToMemoryCacheRef (m : List (String × Ref)) (videoId : String)
    (r : Ref) : List (String × Ref) :=
  addToMemoryCacheGen m videoId r

/-- `saveToIndexedDB` observed at the reference level: `store.put`
structured-clones the payload, so the stored row holds a copy of the
value, not the caller's reference. -/
def saveToIndexedDBRef {α : Type} (h : Heap α) (rows : List (String × α))
    (videoId : String) (r : Ref) : List (String × α) :=
  match h.get r with
  | some v => mapSet rows videoId v
  | none => rows

/-- `getFromIndexedDB` observed at the reference level (expiry elided):
reading deserializes the stored value into a freshly allocated object,
so every read hands back a new reference. -/
def getFromIndexedDBRef {α : Type} (h : Heap α) (rows : List (String × α))
    (videoId : String) : Option (Heap α × Ref) :=
  match mapGet rows videoId with
  | some v => some (h.alloc v)
  | none => none

/-- Sample caption metadata for concrete instantiations. -/
def sampleCaptionData : CaptionData :=
  { language := "en", type := some "manual", source := "vocabumin" }

/-- Sample caption list for concrete instantiations. -/
def sampleCaptions : List Caption :=
  [{ start := 1, «end» := 2, text := "hi", words := [{ text := "hi", punctuation := "" }] }]

/-- Sample volatile-cache entry written at time 0. -/
def sampleEntry : MemEntry :=
  { captions := some sampleCaptions, captionData := sampleCaptionData, timestamp := 0 }

/-- Sample persistent row for video "abc123" written at time 0. -/
def sampleRow : DBRow :=
  { videoId := "abc123", captions := some sampleCaptions,
    captionData := sampleCaptionData, cachedAt := 0 }

/-- A baseline environment with every collaborator failing benignly. -/
def sampleEnv : FetchEnv :=
  { now := 5000, token := none, serverNet := .throws, subtitleServer := "",
    vocabuminNet := .throws, json3Net := .throws, vttNet := .throws,
    idbFaults := noFaults }

/-- A quota-denial decision `{allowed:false, reason:"burst_limit", waitTime:300}`. -/
def burstDenialBody : ServerCheckBody :=
  { cached := false, subtitles := none, hit_count := 0, age_days := 0,
    allowed := false, reason := "burst_limit", waitTime := 300,
    usage := some { burst := "3/3", hourly := "5/20", daily := "7/50" } }

/-- The cloud provider returning one auto-generated segment
`{start:10, duration:4}`. -/
def generatedSegmentBody : VocabuminBody :=
  { success := true,
    transcript := .object [{ start := 10, duration := 4, text := "hello world." }] true,
    language := "en", error_type := "", error := "", warp_active := false }

/-- A `Map.set` on a present key yields that key's new value on lookup;
on an absent key the appended pair is found. -/
theorem mapGet_mapSet_self {α : Type} (m : List (String × α)) (k : String)
    (v : α) : mapGet (mapSet m k v) k = some v := by
  induction m with
  | nil => simp [mapSet, mapGet]
  | cons p rest ih =>
      by_cases h : p.1 = k
      · simp [mapSet, mapGet, h]
      · simp [mapSet, mapGet, h, ih]

/-- `Map.set` on an absent key appends at the end. -/
theorem mapSet_of_mapGet_none {α : Type} (m : List (String × α)) (k : String)
    (v : α) (h : mapGet m k = none) : mapSet m k v = m ++ [(k, v)] := by
  induction m with
  | nil => simp [mapSet]
  | cons p rest ih =>
      by_cases hp : p.1 = k
      · simp [mapGet, hp] at h
      · simp only [mapGet, hp, if_false, if_neg hp] at h
        simp [mapSet, hp, ih h]

/-- `Map.set` on a present key keeps the size. -/
theorem length_mapSet_of_mapGet_some {α : Type} (m : List (String × α))
    (k : String) (v w : α) (h : mapGet m k = some w) :
    (mapSet m k v).length = m.length := by
  induction m with
  | nil => simp [mapGet] at h
  | cons p rest ih =>
      by_cases hp : p.1 = k
      · simp [mapSet, hp]
      · simp only [mapGet, if_neg hp] at h
        simp [mapSet, hp, ih h]

/-- `Map.set` grows the size by at most one. -/
theorem length_mapSet_le {α : Type} (m : List (String × α)) (k : String)
    (v : α) : (mapSet m k v).length ≤ m.length + 1 := by
  induction m with
  | nil => simp [mapSet]
  | cons p rest ih =>
      by_cases hp : p.1 = k
      · simp [mapSet, hp]
      · simp only [mapSet, if_neg hp, List.length_cons]
        omega

/-- An absent key means no pair of the list carries it. -/
theorem mapGet_eq_none_iff {α : Type} (m : List (String × α)) (k : String) :
    mapGet m k = none ↔ ∀ q ∈ m, q.1 ≠ k := by
  induction m with
  | nil => simp [mapGet]
  | cons p rest ih =>
      by_cases hp : p.1 = k
      · simp [mapGet, hp]
      · simp [mapGet, hp, ih]

/-- Lookup skips a prefix that lacks the key. -/
theorem mapGet_append_of_none {α : Type} (m l : List (String × α))
    (k : String) (h : mapGet m k = none) :
    mapGet (m ++ l) k = mapGet l k := by
  induction m with
  | nil => simp
  | cons p rest ih =>
      by_cases hp : p.1 = k
      · simp [mapGet, hp] at h
      · simp only [mapGet, if_neg hp] at h
        simp only [List.cons_append, mapGet, if_neg hp]
        exact ih h

/-- Filtering out a different key does not change a lookup. -/
theorem mapGet_filter_ne {α : Type} (m : List (String × α)) (a k : String)
    (h : a ≠ k) :
    mapGet (m.filter (fun q => q.1 != a)) k = mapGet m k := by
  induction m with
  | nil => simp
  | cons p rest ih =>
      by_cases hp : p.1 = a
      · have hpk : p.1 ≠ k := by rw [hp]; exact h
        rw [List.filter_cons]
        simp [hp, mapGet, hpk, ih, h]
      · rw [List.filter_cons]
        by_cases hpk : p.1 = k
        · simp [hp, mapGet, hpk, Ne.symm h]
        · simp [hp, mapGet, hpk, ih]

/-- Deleting the head key of a nonempty list drops at least the head. -/
theorem filter_headKey_length {α : Type} (p : String × α)
    (t : List (String × α)) :
    ((p :: t).filter (fun q => q.1 != p.1)).length ≤ t.length := by
  rw [List.filter_cons]
  simp only [bne_self_eq_false, Bool.false_eq_true, if_false]
  exact List.length_filter_le _ t

/-- The bounded put never leaves more than `maxMemoryCacheSize` entries
(when the bound held before). -/
theorem addToMemoryCacheGen_length_le {α : Type} (m : List (String × α))
    (k : String) (v : α) (h : m.length ≤ maxMemoryCacheSize) :
    (addToMemoryCacheGen m k v).length ≤ maxMemoryCacheSize := by
  unfold addToMemoryCacheGen
  by_cases hlen : (mapSet m k v).length > maxMemoryCacheSize
  · rcases he : mapSet m k v with _ | ⟨p, t⟩
    · rw [he] at hlen; simp at hlen
    · rw [he] at hlen
      have hle : (mapSet m k v).length ≤ m.length + 1 := length_mapSet_le m k v
      rw [he] at hle
      simp only [hlen, if_true, he, List.head?]
      have := filter_headKey_length p t
      simp only [List.length_cons] at hle
      simp only [maxMemoryCacheSize] at h hlen ⊢
      omega
  · simp only [if_neg hlen]
    omega

/-- After a bounded put, looking the key up yields the value just
written (the just-appended entry is never the evicted head). -/
theorem mapGet_addToMemoryCacheGen_self {α : Type} (m : List (String × α))
    (k : String) (v : α) (h : m.length ≤ maxMemoryCacheSize) :
    mapGet (addToMemoryCacheGen m k v) k = some v := by
  unfold addToMemoryCacheGen
  by_cases hlen : (mapSet m k v).length > maxMemoryCacheSize
  · rcases he : mapSet m k v with _ | ⟨p, t⟩
    · rw [he] at hlen; simp at hlen
    · rw [he] at hlen
      simp only [hlen, if_true, he, List.head?]
      have hpk : p.1 ≠ k := by
        cases hm : mapGet m k with
        | some w =>
            have := length_mapSet_of_mapGet_some m k v w hm
            rw [he] at this
            simp only [maxMemoryCacheSize] at hlen h
            omega
        | none =>
            have hset := mapSet_of_mapGet_none m k v hm
            rw [he] at hset
            have hm' : m.length = maxMemoryCacheSize := by
              have hle : (mapSet m k v).length ≤ m.length + 1 := length_mapSet_le m k v
              rw [he] at hle
              simp only [maxMemoryCacheSize] at h hlen ⊢
              omega
            rcases m with _ | ⟨q, t'⟩
            · simp [maxMemoryCacheSize] at hm'
            · have : q = p := by
                have := congrArg List.head? hset
                simp at this
                exact this.symm
              rw [← this]
              have := (mapGet_eq_none_iff (q :: t') k).mp hm
              exact this q (by simp)
      rw [mapGet_filter_ne (p :: t) p.1 k hpk, ← he]
      exact mapGet_mapSet_self m k v
  · simp only [if_neg hlen]
    exact mapGet_mapSet_self m k v

/-- Inserting a fresh key into a full cache evicts exactly the
first-inserted entry: the result is the tail plus the new pair at the
end. -/
theorem addToMemoryCacheGen_evict {α : Type} (m : List (String × α))
    (k : String) (v : α) (hlen : m.length = maxMemoryCacheSize)
    (habs : mapGet m k = none) (hnd : (m.map Prod.fst).Nodup) :
    addToMemoryCacheGen m k v = m.tail ++ [(k, v)] := by
  unfold addToMemoryCacheGen
  have hset := mapSet_of_mapGet_none m k v habs
  rcases m with _ | ⟨p, t⟩
  · simp [maxMemoryCacheSize] at hlen
  · rw [hset]
    have hgt : (p :: t ++ [(k, v)]).length > maxMemoryCacheSize := by
      simp only [List.length_append, List.length_cons] at hlen ⊢
      omega
    rw [if_pos hgt]
    show List.filter (fun q => q.1 != p.1) (p :: (t ++ [(k, v)])) =
      (p :: t).tail ++ [(k, v)]
    rw [List.filter_cons]
    simp only [bne_self_eq_false, Bool.false_eq_true, if_false]
    rw [List.filter_append]
    have hforall := (mapGet_eq_none_iff (p :: t) k).mp habs
    have ht : t.filter (fun q => q.1 != p.1) = t := by
      rw [List.filter_eq_self]
      intro q hq
      simp only [List.map_cons, List.nodup_cons] at hnd
      have : q.1 ∈ t.map Prod.fst := List.mem_map_of_mem Prod.fst hq
      by_cases hqp : q.1 = p.1
      · exact absurd (hqp ▸ this) hnd.1
      · simp [hqp]
    have hk : [(k, v)].filter (fun q => q.1 != p.1) = [(k, v)] := by
      have hp := hforall p (by simp)
      have hkp : (k != p.1) = true := bne_iff_ne.mpr (Ne.symm hp)
      simp [List.filter_cons, hkp]
    rw [ht, hk]
    simp

/-- After deleting a key, looking that key up finds nothing. -/
theorem dbGet_deleteFromIndexedDB_self (rows : DBStore) (videoId : String) :
    dbGet (deleteFromIndexedDB rows videoId) videoId = none := by
  induction rows with
  | nil => simp [deleteFromIndexedDB, dbGet]
  | cons r rest ih =>
      by_cases hr : r.videoId = videoId
      · simp only [deleteFromIndexedDB, List.filter_cons] at ih ⊢
        simp [hr, ih]
      · simp only [deleteFromIndexedDB, List.filter_cons] at ih ⊢
        have : (r.videoId != videoId) = true := bne_iff_ne.mpr hr
        simp [this, dbGet, hr, ih]

/-- Row lookup skips a prefix that lacks the key. -/
theorem dbGet_append_of_none (a b : DBStore) (videoId : String)
    (h : dbGet a videoId = none) :
    dbGet (a ++ b) videoId = dbGet b videoId := by
  induction a with
  | nil => simp
  | cons r rest ih =>
      by_cases hr : r.videoId = videoId
      · simp [dbGet, hr] at h
      · simp only [dbGet, if_neg hr] at h
        simp only [List.cons_append, dbGet, if_neg hr]
        exact ih h

/-- A fault-free `saveToIndexedDB` leaves exactly the freshly stamped
row under the key. -/
theorem dbGet_saveToIndexedDB_self (f : IDBFaults) (rows : DBStore)
    (videoId : String) (captions : Option (List Caption))
    (captionData : CaptionData) (now : Nat) (hw : f.write = false) :
    dbGet (saveToIndexedDB f rows videoId captions captionData now) videoId =
      some ⟨videoId, captions, captionData, now⟩ := by
  simp only [saveToIndexedDB, hw, Bool.false_eq_true, if_false]
  rw [dbGet_append_of_none _ _ _ (dbGet_deleteFromIndexedDB_self rows videoId)]
  simp [dbGet]

/-- Whatever survives a delete was already in the store. -/
theorem mem_deleteFromIndexedDB (rows : DBStore) (videoId : String) :
    ∀ r ∈ deleteFromIndexedDB rows videoId, r ∈ rows := by
  intro r hr
  exact List.mem_of_mem_filter hr

/-- A fresh hit: a present row younger than the expiry window is
returned with its age and the store is untouched. -/
theorem getFromIndexedDB_hit (f : IDBFaults) (rows : DBStore) (now : Nat)
    (videoId : String) (row : DBRow) (hf : f.read = false)
    (h : dbGet rows videoId = some row)
    (hage : now - row.cachedAt < cacheExpiry) :
    getFromIndexedDB f rows now videoId = (some (row, now - row.cachedAt), rows) := by
  simp [getFromIndexedDB, hf, h, hage]

/-- The store a read hands back is either unchanged or has exactly the
looked-up key's stale row deleted. -/
theorem getFromIndexedDB_snd_cases (f : IDBFaults) (rows : DBStore)
    (now : Nat) (videoId : String) :
    (getFromIndexedDB f rows now videoId).2 = rows ∨
    (getFromIndexedDB f rows now videoId).2 = deleteFromIndexedDB rows videoId := by
  unfold getFromIndexedDB
  by_cases hf : f.read
  · simp [hf]
  · simp only [hf, Bool.false_eq_true, if_false]
    cases h : dbGet rows videoId with
    | none => simp
    | some row =>
      by_cases hage : now - row.cachedAt < cacheExpiry
      · simp [hage]
      · by_cases hd : f.delete
        · simp [hage, hd]
        · simp [hage, hd]

/-- Claim C1: a volatile (memory) cache hit makes `fetchSubtitles` return
the cached payload with `source:"memory", cached:true` and its age,
leaving all state untouched and invoking neither `checkCacheAndLimits`,
nor the source fetcher, nor any usage logging; and a persistent cache
hit (volatile miss, unexpired row) returns the row's payload with
`source:"local_cache", cached:true, age_minutes`, promotes it into the
volatile cache, and likewise invokes no remote collaborator and consumes
no quota.  The last two conjuncts record that the `memoryHit` /
`localCacheHit` return objects carry exactly those `source`/`cached`
fields and no `error` field. -/
theorem c1_local_hits_bypass_quota :
    (∀ (st : ManagerState) (env : FetchEnv) (videoId : String) (e : MemEntry),
       videoId ≠ "" →
       mapGet st.memoryCache videoId = some e →
       fetchSubtitles st env videoId = .ok
         { result := .memoryHit e.captions e.captionData
             (mathRoundDiv (env.now - e.timestamp) 1000)
             (mathRoundDiv (env.now - e.timestamp) 60000),
           finalState := st, remoteChecked := false, sourceFetched := false,
           storedServerCache := false, loggedFetch := false }) ∧
    (∀ (st : ManagerState) (env : FetchEnv) (videoId : String)
       (rows : DBStore) (row : DBRow),
       videoId ≠ "" →
       mapGet st.memoryCache videoId = none →
       st.db = .ready rows →
       env.idbFaults.read = false →
       dbGet rows videoId = some row →
       env.now - row.cachedAt < cacheExpiry →
       fetchSubtitles st env videoId = .ok
         { result := .localCacheHit row.captions row.captionData
             (mathRoundDiv (env.now - row.cachedAt) 60000),
           finalState :=
             { memoryCache := addToMemoryCache st.memoryCache videoId
                 { captions := row.captions, captionData := row.captionData,
                   timestamp := env.now },
               db := .ready rows },
           remoteChecked := false, sourceFetched := false,
           storedServerCache := false, loggedFetch := false }) ∧
    (∀ (c : Option (List Caption)) (d : CaptionData) (a b : Nat),
       (FetchResult.memoryHit c d a b).sourceField = some "memory" ∧
       (FetchResult.memoryHit c d a b).cachedField = some true ∧
       (FetchResult.memoryHit c d a b).errorField = none) ∧
    (∀ (c : Option (List Caption)) (d : CaptionData) (a : Nat),
       (FetchResult.localCacheHit c d a).sourceField = some "local_cache" ∧
       (FetchResult.localCacheHit c d a).cachedField = some true ∧
       (FetchResult.localCacheHit c d a).errorField = none) := by
  refine ⟨?_, ?_, ?_, ?_⟩
  · intro st env videoId e hv hm
    simp [fetchSubtitles, hv, hm]
  · intro st env videoId rows row hv hm hdb hf hrow hage
    have hget := getFromIndexedDB_hit env.idbFaults rows env.now videoId row hf hrow hage
    simp [fetchSubtitles, hv, hm, hdb, hget]
  · intro c d a b
    exact ⟨rfl, rfl, rfl⟩
  · intro c d a
    exact ⟨rfl, rfl, rfl⟩

/-- Witness for C1 at concrete inputs: a memory hit on `"abc123"` at
time 5000 ms (entry written at 0) returns the cached payload with ages
5 s / 0 min and an unchanged state. -/
theorem c1_witness :
    fetchSubtitles ⟨[("abc123", sampleEntry)], .ready []⟩ sampleEnv "abc123" = .ok
      { result := .memoryHit (some sampleCaptions) sampleCaptionData 5 0,
        finalState := ⟨[("abc123", sampleEntry)], .ready []⟩,
        remoteChecked := false, sourceFetched := false,
        storedServerCache := false, loggedFetch := false } := by
  have h := c1_local_hits_bypass_quota.1 ⟨[("abc123", sampleEntry)], .ready []⟩
    sampleEnv "abc123" sampleEntry (by decide) (by rfl)
  exact h.trans (by decide)

/-- Claim C2: whenever the remote check cannot complete — no token, a
thrown request, a JSON parse failure, or a status that is neither 2xx
nor 429 — `checkCacheAndLimits` returns exactly the fail-open decision
`{cached:false, allowed:true, usage:null}` (it is a total function, so
it never raises), and a 429 body is returned verbatim exactly like a
2xx body. -/
theorem c2_remote_check_fail_open :
    (∀ net : NetCall ServerCheckBody,
       checkCacheAndLimits none net = failOpenDecision) ∧
    (∀ t : String, checkCacheAndLimits (some t) .throws = failOpenDecision) ∧
    (∀ (t : String) (status : Nat),
       checkCacheAndLimits (some t) (.badJson status) = failOpenDecision) ∧
    (∀ (t : String) (status : Nat) (body : ServerCheckBody),
       httpOk status = false → status ≠ 429 →
       checkCacheAndLimits (some t) (.response status body) = failOpenDecision) ∧
    (∀ (t : String) (body : ServerCheckBody),
       checkCacheAndLimits (some t) (.response 429 body) = body ∧
       ∀ status : Nat, httpOk status = true →
         checkCacheAndLimits (some t) (.response status body) = body) ∧
    (failOpenDecision.cached = false ∧ failOpenDecision.allowed = true ∧
       failOpenDecision.usage = none) := by
  refine ⟨fun net => rfl, fun t => rfl, fun t status => rfl, ?_, ?_, rfl, rfl, rfl⟩
  · intro t status body hok h429
    simp [checkCacheAndLimits, hok, h429]
  · intro t body
    constructor
    · simp [checkCacheAndLimits]
    · intro status hok
      simp [checkCacheAndLimits, hok]

/-- Witness for C2 at a concrete input: HTTP 500 with a parsed body is
discarded in favour of the fail-open decision. -/
theorem c2_witness :
    checkCacheAndLimits (some "tok") (.response 500 burstDenialBody) =
      failOpenDecision :=
  c2_remote_check_fail_open.2.2.2.1 "tok" 500 burstDenialBody (by decide) (by decide)

/-- Claim C3: a remote miss with `allowed:false` terminates
`fetchSubtitles` with the structured rate-limit error carrying the
decision's `waitTime` and usage counters, the source fetcher is never
invoked, and no cache entry is written. -/
theorem c3_quota_denial_terminal :
    ∀ (st : ManagerState) (env : FetchEnv) (videoId : String)
      (rows rows2 : DBStore),
      videoId ≠ "" →
      mapGet st.memoryCache videoId = none →
      st.db = .ready rows →
      getFromIndexedDB env.idbFaults rows env.now videoId = (none, rows2) →
      (checkCacheAndLimits env.token env.serverNet).cached = false →
      (checkCacheAndLimits env.token env.serverNet).allowed = false →
      fetchSubtitles st env videoId = .ok
        { result := .rateLimited
            (mathCeilDiv (checkCacheAndLimits env.token env.serverNet).waitTime 60)
            (checkCacheAndLimits env.token env.serverNet).waitTime
            (checkCacheAndLimits env.token env.serverNet).usage,
          finalState := { memoryCache := st.memoryCache, db := .ready rows2 },
          remoteChecked := true, sourceFetched := false,
          storedServerCache := false, loggedFetch := false } := by
  intro st env videoId rows rows2 hv hm hdb hget hc ha
  simp [fetchSubtitles, hv, hm, hdb, hget, hc, ha]

/-- Witness for C3 at the concrete decision
`{allowed:false, reason:"burst_limit", waitTime:300}`: the error result
carries a 5-minute wait (`wait_time` 300 s) and SourceFetcher was not
invoked. -/
theorem c3_witness :
    fetchSubtitles ⟨[], .ready []⟩
      { sampleEnv with
        token := some "tok",
        serverNet := .response 200 burstDenialBody } "abc123" = .ok
      { result := .rateLimited 5 300
          (some { burst := "3/3", hourly := "5/20", daily := "7/50" }),
        finalState := ⟨[], .ready []⟩,
        remoteChecked := true, sourceFetched := false,
        storedServerCache := false, loggedFetch := false } := by
  have h := c3_quota_denial_terminal ⟨[], .ready []⟩
    { sampleEnv with
      token := some "tok",
      serverNet := .response 200 burstDenialBody } "abc123" [] []
    (by decide) (by rfl) (by rfl) (by decide) (by decide) (by decide)
  exact h.trans (by decide)

/-- Claim C4: every call that ends in a successful source fetch writes
the fetched payload into both the volatile and the persistent tier in
the final state returned with the result (the write-through happens
before `fetchSubtitles` returns), and the remote shared-cache store and
the usage log are initiated as backgrounded best-effort operations.  The
lookup conjuncts confirm both tiers then hold the payload for that
`videoId` (the persistent one provided its `put` request does not
fault), so neither tier diverges within the call. -/
theorem c4_write_through_on_success :
    ∀ (st : ManagerState) (env : FetchEnv) (videoId : String)
      (rows rows2 : DBStore),
      videoId ≠ "" →
      mapGet st.memoryCache videoId = none →
      st.db = .ready rows →
      getFromIndexedDB env.idbFaults rows env.now videoId = (none, rows2) →
      (checkCacheAndLimits env.token env.serverNet).cached = false →
      (checkCacheAndLimits env.token env.serverNet).allowed = true →
      (∀ (captions : List Caption) (captionData : CaptionData),
         fetchFromYtDlp env.subtitleServer env.vocabuminNet env.json3Net
             env.vttNet = .captionsSuccess captions captionData →
         fetchSubtitles st env videoId = .ok
           { result := .freshFetch (some captions) none captionData
               (if captionData.source = "" then "unknown" else captionData.source),
             finalState :=
               { memoryCache := addToMemoryCache st.memoryCache videoId
                   { captions := some captions, captionData := captionData,
                     timestamp := env.now },
                 db := .ready (saveToIndexedDB env.idbFaults rows2 videoId
                         (some captions) captionData env.now) },
             remoteChecked := true, sourceFetched := true,
             storedServerCache := true, loggedFetch := true } ∧
         (st.memoryCache.length ≤ maxMemoryCacheSize →
            mapGet (addToMemoryCache st.memoryCache videoId
                { captions := some captions, captionData := captionData,
                  timestamp := env.now }) videoId =
              some { captions := some captions, captionData := captionData,
                     timestamp := env.now }) ∧
         (env.idbFaults.write = false →
            dbGet (saveToIndexedDB env.idbFaults rows2 videoId
                (some captions) captionData env.now) videoId =
              some ⟨videoId, some captions, captionData, env.now⟩)) ∧
      (∀ (content : String) (captionData : CaptionData),
         fetchFromYtDlp env.subtitleServer env.vocabuminNet env.json3Net
             env.vttNet = .contentSuccess content captionData →
         fetchSubtitles st env videoId = .ok
           { result := .freshFetch none (some content) captionData
               (if captionData.source = "" then "unknown" else captionData.source),
             finalState :=
               { memoryCache := addToMemoryCache st.memoryCache videoId
                   { captions := none, captionData := captionData,
                     timestamp := env.now },
                 db := .ready (saveToIndexedDB env.idbFaults rows2 videoId
                         none captionData env.now) },
             remoteChecked := true, sourceFetched := true,
             storedServerCache := true, loggedFetch := true } ∧
         (st.memoryCache.length ≤ maxMemoryCacheSize →
            mapGet (addToMemoryCache st.memoryCache videoId
                { captions := none, captionData := captionData,
                  timestamp := env.now }) videoId =
              some { captions := none, captionData := captionData,
                     timestamp := env.now }) ∧
         (env.idbFaults.write = false →
            dbGet (saveToIndexedDB env.idbFaults rows2 videoId
                none captionData env.now) videoId =
              some ⟨videoId, none, captionData, env.now⟩)) := by
  intro st env videoId rows rows2 hv hm hdb hget hc ha
  constructor
  · intro captions captionData hfr
    refine ⟨?_, ?_, ?_⟩
    · simp [fetchSubtitles, hv, hm, hdb, hget, hc, ha, hfr]
    · intro hlen
      exact mapGet_addToMemoryCacheGen_self st.memoryCache videoId _ hlen
    · intro hw
      exact dbGet_saveToIndexedDB_self env.idbFaults rows2 videoId
        (some captions) captionData env.now hw
  · intro content captionData hfr
    refine ⟨?_, ?_, ?_⟩
    · simp [fetchSubtitles, hv, hm, hdb, hget, hc, ha, hfr]
    · intro hlen
      exact mapGet_addToMemoryCacheGen_self st.memoryCache videoId _ hlen
    · intro hw
      exact dbGet_saveToIndexedDB_self env.idbFaults rows2 videoId
        none captionData env.now hw

/-- Witness for C4 at concrete inputs: an allowed fresh cloud fetch of
one generated segment lands in both cache tiers of the final state
before the call returns, with the background store and log initiated. -/
theorem c4_witness :
    fetchSubtitles ⟨[], .ready []⟩
      { sampleEnv with
        token := some "tok",
        serverNet := .response 200 failOpenDecision,
        vocabuminNet := .response 200 generatedSegmentBody } "abc123" = .ok
      { result := .freshFetch
          (some [{ start := 10, «end» := 10 + 4 * (45/100), text := "hello world.",
                   words := [{ text := "hello", punctuation := "" },
                             { text := "world", punctuation := "." }] }])
          none
          { language := "en", type := some "auto-generated", source := "vocabumin" }
          "vocabumin",
        finalState :=
          { memoryCache :=
              [("abc123",
                { captions := some [{ start := 10, «end» := 10 + 4 * (45/100),
                                      text := "hello world.",
                                      words := [{ text := "hello", punctuation := "" },
                                                { text := "world", punctuation := "." }] }],
                  captionData := { language := "en", type := some "auto-generated",
                                   source := "vocabumin" },
                  timestamp := 5000 })],
            db := .ready
              [{ videoId := "abc123",
                 captions := some [{ start := 10, «end» := 10 + 4 * (45/100),
                                     text := "hello world.",
                                     words := [{ text := "hello", punctuation := "" },
                                               { text := "world", punctuation := "." }] }],
                 captionData := { language := "en", type := some "auto-generated",
                                  source := "vocabumin" },
                 cachedAt := 5000 }] },
        remoteChecked := true, sourceFetched := true,
        storedServerCache := true, loggedFetch := true } := by
  have h := (c4_write_through_on_success ⟨[], .ready []⟩
    { sampleEnv with
      token := some "tok",
      serverNet := .response 200 failOpenDecision,
      vocabuminNet := .response 200 generatedSegmentBody } "abc123" [] []
    (by decide) (by rfl) (by rfl) (by decide) (by decide) (by decide)).1
    [{ start := 10, «end» := 10 + 4 * (45/100), text := "hello world.",
       words := [{ text := "hello", punctuation := "" },
                 { text := "world", punctuation := "." }] }]
    { language := "en", type := some "auto-generated", source := "vocabumin" }
    (by rfl)
  exact h.1.trans (by rfl)

/-- Claim C5: on the cloud source path, a successful transcript response
maps each raw segment `{start, duration}` to a caption ending at
`start + duration * 0.45` when the transcript is machine-generated and
at `start + duration` (unscaled) when manually authored. -/
theorem c5_duration_scaling :
    ∀ (status : Nat) (body : VocabuminBody) (snippets : List Snippet),
      httpOk status = true →
      body.success = true →
      body.transcript.snippetsOf = some snippets →
      0 < snippets.length →
      fetchFromVocabumin (.response status body) =
        .captionsSuccess
          (snippets.map (fun segment =>
            { start := segment.start,
              «end» := segment.start + segment.duration *
                (if body.transcript.isGeneratedOf then (45 : Rat)/100 else 1),
              text := segment.text,
              words := extractWordsFromText segment.text }))
          { language := if body.language = "" then "en" else body.language,
            type := some (if body.transcript.isGeneratedOf then "auto-generated"
                          else "manual"),
            source := "vocabumin" } := by
  intro status body snippets hok hsucc hsnips hlen
  simp [fetchFromVocabumin, hok, hsnips, hsucc, hlen]

/-- Witness for C5 at the concrete generated segment
`{start:10, duration:4}`: the caption ends at `10 + 4*0.45`, which the
final conjunct evaluates to `11.8 = 59/5`. -/
theorem c5_witness :
    fetchFromVocabumin (.response 200 generatedSegmentBody) =
      .captionsSuccess
        [{ start := 10, «end» := 10 + 4 * (45/100), text := "hello world.",
           words := [{ text := "hello", punctuation := "" },
                     { text := "world", punctuation := "." }] }]
        { language := "en", type := some "auto-generated", source := "vocabumin" }
      ∧ (10 : Rat) + 4 * (45/100) = 59/5 := by
  constructor
  · have h := c5_duration_scaling 200 generatedSegmentBody
      [{ start := 10, duration := 4, text := "hello world." }]
      (by decide) (by rfl) (by rfl) (by decide)
    exact h.trans (by rfl)
  · norm_num

/-- Claim C6: a persistent-cache read returns the stored row exactly
when its age `now - writtenAt` is strictly below the 7-day window
(first two conjuncts: the fresh-hit equation and the converse — any
`some` answer implies freshness and an untouched store); an entry at or
past that age is treated as absent and its row is deleted as a side
effect of the read, after which any subsequent read of the same key also
returns absent (not an error) with the row gone from the store. -/
theorem c6_persistent_expiry :
    (∀ (f : IDBFaults) (rows : DBStore) (now : Nat) (videoId : String)
       (row : DBRow),
       f.read = false →
       dbGet rows videoId = some row →
       now - row.cachedAt < cacheExpiry →
       getFromIndexedDB f rows now videoId = (some (row, now - row.cachedAt), rows)) ∧
    (∀ (f : IDBFaults) (rows rows2 : DBStore) (now : Nat) (videoId : String)
       (row : DBRow) (age : Nat),
       getFromIndexedDB f rows now videoId = (some (row, age), rows2) →
       dbGet rows videoId = some row ∧ age = now - row.cachedAt ∧
         age < cacheExpiry ∧ rows2 = rows) ∧
    (∀ (f : IDBFaults) (rows : DBStore) (now : Nat) (videoId : String)
       (row : DBRow),
       f.read = false → f.delete = false →
       dbGet rows videoId = some row →
       cacheExpiry ≤ now - row.cachedAt →
       getFromIndexedDB f rows now videoId = (none, deleteFromIndexedDB rows videoId) ∧
       dbGet (deleteFromIndexedDB rows videoId) videoId = none ∧
       (∀ (now2 : Nat) (f2 : IDBFaults),
          getFromIndexedDB f2 (deleteFromIndexedDB rows videoId) now2 videoId =
            (none, deleteFromIndexedDB rows videoId))) := by
  refine ⟨?_, ?_, ?_⟩
  · intro f rows now videoId row hf h hage
    exact getFromIndexedDB_hit f rows now videoId row hf h hage
  · intro f rows rows2 now videoId row age h
    unfold getFromIndexedDB at h
    by_cases hf : f.read
    · simp [hf] at h
    · simp only [hf, Bool.false_eq_true, if_false] at h
      cases hrow : dbGet rows videoId with
      | none => rw [hrow] at h; simp at h
      | some data =>
          rw [hrow] at h
          by_cases hage : now - data.cachedAt < cacheExpiry
          · simp only [hage, if_true, Prod.mk.injEq, Option.some.injEq] at h
            obtain ⟨⟨hdr, hagev⟩, hrows⟩ := h
            subst hdr
            exact ⟨rfl, hagev.symm, hagev ▸ hage, hrows.symm⟩
          · simp [hage] at h
  · intro f rows now videoId row hf hd hrow hage
    have hnot : ¬ (now - row.cachedAt < cacheExpiry) := not_lt.mpr hage
    refine ⟨?_, dbGet_deleteFromIndexedDB_self rows videoId, ?_⟩
    · simp [getFromIndexedDB, hf, hrow, hnot, hd]
    · intro now2 f2
      unfold getFromIndexedDB
      by_cases hf2 : f2.read
      · simp [hf2]
      · simp [hf2, dbGet_deleteFromIndexedDB_self rows videoId]

/-- Witness for C6 at concrete inputs: the sample row (written at 0) is
returned at age `cacheExpiry - 1` but treated as absent and deleted at
age `cacheExpiry`, after which a re-read still returns absent. -/
theorem c6_witness :
    getFromIndexedDB noFaults [sampleRow] (cacheExpiry - 1) "abc123" =
      (some (sampleRow, cacheExpiry - 1), [sampleRow]) ∧
    getFromIndexedDB noFaults [sampleRow] cacheExpiry "abc123" = (none, []) ∧
    getFromIndexedDB noFaults [] (cacheExpiry + 5) "abc123" = (none, []) := by
  refine ⟨?_, ?_, ?_⟩
  · have h := c6_persistent_expiry.1 noFaults [sampleRow] (cacheExpiry - 1)
      "abc123" sampleRow (by rfl) (by rfl) (by decide)
    exact h.trans (by decide)
  · have h := (c6_persistent_expiry.2.2 noFaults [sampleRow] cacheExpiry
      "abc123" sampleRow (by rfl) (by rfl) (by rfl) (by decide)).1
    exact h.trans (by decide)
  · have h := ((c6_persistent_expiry.2.2 noFaults [sampleRow] cacheExpiry
      "abc123" sampleRow (by rfl) (by rfl) (by rfl) (by decide)).2.2
      (cacheExpiry + 5) noFaults)
    exact h.trans (by decide)

/-- Claim C7: a put into the volatile cache never leaves more than the
bound of 3 entries (given the bound held before, as it does in every
reachable state); a put of a fresh key into a full cache removes exactly
the single oldest-inserted entry, leaving the tail plus the new entry at
the end; and overwriting an already-present key evicts nothing. -/
theorem c7_volatile_bound_eviction :
    (∀ (m : List (String × MemEntry)) (k : String) (e : MemEntry),
       m.length ≤ maxMemoryCacheSize →
       (addToMemoryCache m k e).length ≤ maxMemoryCacheSize) ∧
    (∀ (m : List (String × MemEntry)) (k : String) (e : MemEntry),
       m.length = maxMemoryCacheSize →
       mapGet m k = none →
       (m.map Prod.fst).Nodup →
       addToMemoryCache m k e = m.tail ++ [(k, e)]) ∧
    (∀ (m : List (String × MemEntry)) (k : String) (e w : MemEntry),
       m.length ≤ maxMemoryCacheSize →
       mapGet m k = some w →
       (addToMemoryCache m k e).length = m.length) := by
  refine ⟨?_, ?_, ?_⟩
  · intro m k e h
    exact addToMemoryCacheGen_length_le m k e h
  · intro m k e hlen habs hnd
    exact addToMemoryCacheGen_evict m k e hlen habs hnd
  · intro m k e w hle hsome
    unfold addToMemoryCache addToMemoryCacheGen
    have hl := length_mapSet_of_mapGet_some m k e w hsome
    have hnot : ¬ (mapSet m k e).length > maxMemoryCacheSize := by omega
    simp only [if_neg hnot]
    exact hl

/-- Witness for C7 at concrete inputs: pushing a fourth distinct key
into a full three-entry cache evicts exactly the first-inserted key. -/
theorem c7_witness :
    addToMemoryCache
      [("a", sampleEntry), ("b", sampleEntry), ("c", sampleEntry)] "d" sampleEntry =
      [("b", sampleEntry), ("c", sampleEntry), ("d", sampleEntry)] ∧
    (addToMemoryCache
      [("a", sampleEntry), ("b", sampleEntry), ("c", sampleEntry)] "d" sampleEntry).length ≤
      maxMemoryCacheSize := by
  constructor
  · have h := c7_volatile_bound_eviction.2.1
      [("a", sampleEntry), ("b", sampleEntry), ("c", sampleEntry)] "d" sampleEntry
      (by decide) (by decide) (by decide)
    exact h.trans (by decide)
  · exact c7_volatile_bound_eviction.1
      [("a", sampleEntry), ("b", sampleEntry), ("c", sampleEntry)] "d" sampleEntry
      (by decide)

/-- Counterexample to claim C8 as stated: a put into the volatile cache
followed immediately by a get returns the very same reference that was
written (`Map.set` stores the caller's payload object, no copy), so the
returned payload is deep-equal trivially but IS the same reference —
refuting "not the same reference ... copied into each tier it
populates" for the volatile tier at the concrete input reference `0`. -/
theorem c8_volatile_shares_reference_counterexample :
    addToMemoryCacheRef [] "abc123" 0 = [("abc123", 0)] ∧
    mapGet (addToMemoryCacheRef [] "abc123" 0) "abc123" = some 0 := by
  exact ⟨rfl, rfl⟩

/-- Claim C8 as amended: the persistent tier does copy — `store.put`
structured-clones the payload and every read materializes a fresh
reference (distinct from the written one on a well-formed heap) holding
a value equal to the one written — while the volatile tier stores and
returns the caller's own reference, so its round trip is (reference,
hence deep) equality without a copy. -/
theorem c8_copy_semantics_amended {α : Type} :
    (∀ (m : List (String × Ref)) (k : String) (r : Ref),
       m.length ≤ maxMemoryCacheSize →
       mapGet (addToMemoryCacheRef m k r) k = some r) ∧
    (∀ (h : Heap α) (rows : List (String × α)) (k : String) (r : Ref) (v : α),
       h.wf → h.get r = some v →
       getFromIndexedDBRef h (saveToIndexedDBRef h rows k r) k =
         some ({ next := h.next + 1, vals := (h.next, v) :: h.vals }, h.next) ∧
       h.next ≠ r ∧
       Heap.get { next := h.next + 1, vals := (h.next, v) :: h.vals } h.next =
         some v) := by
  constructor
  · intro m k r hlen
    exact mapGet_addToMemoryCacheGen_self m k r hlen
  · intro h rows k r v hwf hget
    refine ⟨?_, ?_, ?_⟩
    · unfold getFromIndexedDBRef saveToIndexedDBRef
      rw [hget, mapGet_mapSet_self]
      rfl
    · unfold Heap.get at hget
      cases hfind : h.vals.find? (fun p => p.1 == r) with
      | none => rw [hfind] at hget; simp at hget
      | some p =>
          have hmem := List.mem_of_find?_eq_some hfind
          have hb : (p.1 == r) = true := by
            have := List.find?_some hfind
            simpa using this
          have hpr : p.1 = r := eq_of_beq hb
          have hlt : p.1 < h.next := hwf p hmem
          subst hpr
          intro heq
          exact absurd (heq ▸ hlt) (Nat.lt_irrefl p.1)
    · unfold Heap.get
      simp [List.find?]

/-- Witness for C8's amended theorem at concrete inputs: the volatile
round trip hands back reference `7` itself; the persistent round trip
of reference `0` (pointing at value `42`) hands back the fresh
reference `1 ≠ 0` pointing at an equal value. -/
theorem c8_witness :
    mapGet (addToMemoryCacheRef [] "v" 7) "v" = some 7 ∧
    getFromIndexedDBRef (⟨1, [(0, 42)]⟩ : Heap Nat)
        (saveToIndexedDBRef (⟨1, [(0, 42)]⟩ : Heap Nat) [] "v" 0) "v" =
      some (⟨2, [(1, 42), (0, 42)]⟩, 1) ∧
    (1 : Ref) ≠ 0 := by
  refine ⟨?_, ?_, by decide⟩
  · exact (c8_copy_semantics_amended (α := Nat)).1 [] "v" 7 (by decide)
  · have h := ((c8_copy_semantics_amended (α := Nat)).2 ⟨1, [(0, 42)]⟩ [] "v" 0 42
      (by intro p hp; rcases List.mem_singleton.mp hp with rfl; decide)
      (by rfl)).1
    exact h.trans (by rfl)

/-- Claim C9 (the code contradicts it): with the IndexedDB open failing,
a volatile-cache miss makes `fetchSubtitles` reject — the unguarded
`await this.initIndexedDB()` inside `getFromIndexedDB` rethrows the open
error and the call site awaits it without try/catch — instead of
treating the persistent tier as absent (the repo's own documentation
promises "Fallback safe: If IndexedDB fails, falls back to server
cache").  A volatile-cache hit still short-circuits before the broken
tier is touched. -/
theorem c9_db_open_failure_raises :
    fetchSubtitles ⟨[], .failed⟩ sampleEnv "abc123" = .error .dbOpenFailed ∧
    fetchSubtitles ⟨[("abc123", sampleEntry)], .failed⟩ sampleEnv "abc123" =
      .ok { result := .memoryHit (some sampleCaptions) sampleCaptionData 5 0,
            finalState := ⟨[("abc123", sampleEntry)], .failed⟩,
            remoteChecked := false, sourceFetched := false,
            storedServerCache := false, loggedFetch := false } := by
  exact ⟨rfl, rfl⟩

/-- Counterexample to claim C10 as stated: an error-terminating call CAN
modify the persistent cache for its videoId — here the quota-denied call
finds an expired row for `"abc123"`, and the lazy expiry of the
persistent read deletes it, so the final store no longer holds the row
the initial store held, even though the call returns a rate-limit
error. -/
theorem c10_expired_delete_on_error_counterexample :
    dbGet [sampleRow] "abc123" = some sampleRow ∧
    fetchSubtitles ⟨[], .ready [sampleRow]⟩
      { sampleEnv with
        now := cacheExpiry,
        token := some "tok",
        serverNet := .response 200 burstDenialBody } "abc123" = .ok
      { result := .rateLimited 5 300
          (some { burst := "3/3", hourly := "5/20", daily := "7/50" }),
        finalState := ⟨[], .ready []⟩,
        remoteChecked := true, sourceFetched := false,
        storedServerCache := false, loggedFetch := false } := by
  exact ⟨rfl, rfl⟩

/-- Claim C10 as amended: no error path *writes* to any cache tier — the
missing-videoId guard returns before any tier or collaborator is
touched; the quota-denial and source-fetch-failure paths leave the
volatile cache unchanged and never add or overwrite a persistent row,
the only possible store change being the lazy deletion of that
videoId's expired row performed by the persistent *read*; and the three
error results carry an `error` field (the missing-videoId one exactly
`{error:'No video ID provided', cached:false}`). -/
theorem c10_no_writes_on_error_paths :
    (∀ (st : ManagerState) (env : FetchEnv),
       fetchSubtitles st env "" = .ok
         { result := .errNoVideoId, finalState := st, remoteChecked := false,
           sourceFetched := false, storedServerCache := false,
           loggedFetch := false }) ∧
    (FetchResult.errNoVideoId.errorField = some "No video ID provided" ∧
     FetchResult.errNoVideoId.cachedField = some false ∧
     (∀ (a b : Nat) (u : Option Usage),
        (FetchResult.rateLimited a b u).errorField.isSome = true) ∧
     FetchResult.fetchFailed.errorField.isSome = true) ∧
    (∀ (st : ManagerState) (env : FetchEnv) (videoId : String)
       (rows rows2 : DBStore),
       videoId ≠ "" →
       mapGet st.memoryCache videoId = none →
       st.db = .ready rows →
       getFromIndexedDB env.idbFaults rows env.now videoId = (none, rows2) →
       (checkCacheAndLimits env.token env.serverNet).cached = false →
       (checkCacheAndLimits env.token env.serverNet).allowed = false →
       fetchSubtitles st env videoId = .ok
         { result := .rateLimited
             (mathCeilDiv (checkCacheAndLimits env.token env.serverNet).waitTime 60)
             (checkCacheAndLimits env.token env.serverNet).waitTime
             (checkCacheAndLimits env.token env.serverNet).usage,
           finalState := { memoryCache := st.memoryCache, db := .ready rows2 },
           remoteChecked := true, sourceFetched := false,
           storedServerCache := false, loggedFetch := false } ∧
       (rows2 = rows ∨ rows2 = deleteFromIndexedDB rows videoId)) ∧
    (∀ (st : ManagerState) (env : FetchEnv) (videoId : String)
       (rows rows2 : DBStore),
       videoId ≠ "" →
       mapGet st.memoryCache videoId = none →
       st.db = .ready rows →
       getFromIndexedDB env.idbFaults rows env.now videoId = (none, rows2) →
       (checkCacheAndLimits env.token env.serverNet).cached = false →
       (checkCacheAndLimits env.token env.serverNet).allowed = true →
       (fetchFromYtDlp env.subtitleServer env.vocabuminNet env.json3Net
           env.vttNet).isSuccess = false →
       fetchSubtitles st env videoId = .ok
         { result := .fetchFailed,
           finalState := { memoryCache := st.memoryCache, db := .ready rows2 },
           remoteChecked := true, sourceFetched := true,
           storedServerCache := false, loggedFetch := false } ∧
       (rows2 = rows ∨ rows2 = deleteFromIndexedDB rows videoId)) := by
  refine ⟨?_, ⟨rfl, rfl, fun a b u => rfl, rfl⟩, ?_, ?_⟩
  · intro st env
    simp [fetchSubtitles]
  · intro st env videoId rows rows2 hv hm hdb hget hc ha
    constructor
    · simp [fetchSubtitles, hv, hm, hdb, hget, hc, ha]
    · have h2 := getFromIndexedDB_snd_cases env.idbFaults rows env.now videoId
      rw [hget] at h2
      simpa using h2
  · intro st env videoId rows rows2 hv hm hdb hget hc ha hfail
    constructor
    · cases hfr : fetchFromYtDlp env.subtitleServer env.vocabuminNet
        env.json3Net env.vttNet with
      | failure => simp [fetchSubtitles, hv, hm, hdb, hget, hc, ha, hfr]
      | structuredError a b c d e =>
          simp [fetchSubtitles, hv, hm, hdb, hget, hc, ha, hfr]
      | captionsSuccess a b =>
          rw [hfr] at hfail
          simp [YtDlpResult.isSuccess] at hfail
      | contentSuccess a b =>
          rw [hfr] at hfail
          simp [YtDlpResult.isSuccess] at hfail
    · have h2 := getFromIndexedDB_snd_cases env.idbFaults rows env.now videoId
      rw [hget] at h2
      simpa using h2

/-- Witness for C10's amended theorem at concrete inputs: a failed cloud
fetch (every collaborator down, remote check failing open) returns the
fetch-failed error with both cache tiers untouched. -/
theorem c10_witness :
    fetchSubtitles ⟨[], .ready []⟩ sampleEnv "abc123" = .ok
      { result := .fetchFailed, finalState := ⟨[], .ready []⟩,
        remoteChecked := true, sourceFetched := true,
        storedServerCache := false, loggedFetch := false } := by
  have h := (c10_no_writes_on_error_paths.2.2.2 ⟨[], .ready []⟩ sampleEnv
    "abc123" [] [] (by decide) (by rfl) (by rfl) (by rfl) (by rfl) (by rfl)
    (by rfl)).1
  exact h
